import Mathlib

/-!
Verification development for the ScribeAI session pipeline.

The definitions below are a shallow embedding of the server-side session
pipeline: the socket event handlers (`apps/api-socket/src/socket.ts`),
the summary processor (`apps/api-socket/src/summary/processor.ts`), the
audio aggregator (`lib/audioAggregator.ts`), the chunk file storage
(`fileStorage.ts`), the transcription worker (`transcription/worker.ts`),
the Zod payload schemas (`schemas.ts`), and the relational schema of the
Prisma migration.

Modelling conventions:
* The relational store is a `DB` value (lists of rows); each Prisma call
  is a function on `DB`.  `update` on a missing id raises, as Prisma does.
* The on-disk chunk area is a `Store` of (sessionId, filename, bytes)
  entries; bytes are `List Nat`.  The base64 transport encoding of chunk
  payloads is outside the model: `audioData` carries the decoded bytes.
* External processes (ffmpeg concatenation output, the Whisper model and
  the Gemini backend) are passed in as oracle arguments of type `Except`,
  so a run of the pipeline is a pure function of the oracles' outcomes.
* Real time is a `Nat` passed explicitly where the code reads the clock.
* The file-stability poll (`waitForFileReady`) is modelled against a
  quiescent filesystem: it succeeds exactly when the polled file exists
  and is non-empty, which is the fixed point of its stabilisation loop.
-/

namespace ScribeAI

/-- The Prisma `SessionState` enum: `('recording','paused','processing','completed')`. -/
inductive SessionState
  | recording
  | paused
  | processing
  | completed
deriving DecidableEq, Repr

/-- String form of a session state, as stored by Prisma and interpolated
into error messages by the handlers. -/
def SessionState.str : SessionState → String
  | .recording => "recording"
  | .paused => "paused"
  | .processing => "processing"
  | .completed => "completed"

/-- A row of the `sessions` table (fields used by the pipeline). -/
structure Session where
  id : String
  userId : String
  state : SessionState
  startedAt : Nat
  endedAt : Option Nat
deriving DecidableEq, Repr

/-- A row of the `transcript_chunks` table.  Ids are generated `Nat`s in
the model.  The migration puts a plain (non-unique) index on
`(session_id, chunk_index)`; nothing constrains two rows from sharing a
`(sessionId, chunkIndex)` pair. -/
structure TranscriptChunk where
  id : Nat
  sessionId : String
  chunkIndex : Nat
  speaker : Option String
  text : String
deriving DecidableEq, Repr

/-- A row of the `summaries` table. -/
structure SummaryRow where
  id : Nat
  sessionId : String
  content : String
  keyPoints : List String
  actionItems : List String
deriving DecidableEq, Repr

/-- The relational store reached through Prisma: the three tables the
pipeline touches, plus a fresh-id counter for generated row ids. -/
structure DB where
  sessions : List Session
  chunks : List TranscriptChunk
  summaries : List SummaryRow
  nextId : Nat
deriving DecidableEq, Repr

/-- `prisma.session.findUnique({ where: { id } })`. -/
def findSession (db : DB) (sid : String) : Option Session :=
  db.sessions.find? (fun s => s.id == sid)

/-- The state of the session row with id `sid`, when present. -/
def sessionStateOf (db : DB) (sid : String) : Option SessionState :=
  (findSession db sid).map (·.state)

/-- The `endedAt` column of the session row with id `sid`, when present. -/
def sessionEndedAt (db : DB) (sid : String) : Option (Option Nat) :=
  (findSession db sid).map (·.endedAt)

/-- `prisma.session.update({ where: { id }, data })`: applies `f` to the
matching row and returns the updated row, or raises (Prisma `P2025`)
when no row has that id. -/
def sessionUpdate (db : DB) (sid : String) (f : Session → Session) :
    Except String (DB × Session) :=
  match db.sessions.find? (fun s => s.id == sid) with
  | none => .error "Record to update not found."
  | some s =>
      .ok ({ db with
              sessions := db.sessions.map (fun t => if t.id == sid then f t else t) },
           f s)

/-- `prisma.transcriptChunk.create`: appends a row with a generated id. -/
def chunkCreate (db : DB) (sid : String) (idx : Nat) (speaker : Option String)
    (text : String) : DB × TranscriptChunk :=
  let row : TranscriptChunk :=
    { id := db.nextId, sessionId := sid, chunkIndex := idx,
      speaker := speaker, text := text }
  ({ db with chunks := db.chunks ++ [row], nextId := db.nextId + 1 }, row)

/-- `prisma.summary.create`: appends a row with a generated id. -/
def summaryCreate (db : DB) (sid : String) (content : String)
    (keyPoints actionItems : List String) : DB × SummaryRow :=
  let row : SummaryRow :=
    { id := db.nextId, sessionId := sid, content := content,
      keyPoints := keyPoints, actionItems := actionItems }
  ({ db with summaries := db.summaries ++ [row], nextId := db.nextId + 1 }, row)

/-- `prisma.transcriptChunk.update({ where: { id: chunkId }, data: { text, speaker } })`
as issued by the transcription worker. -/
def chunkUpdateText (db : DB) (chunkId : Nat) (text : String)
    (speaker : Option String) : Except String DB :=
  match db.chunks.find? (fun c => c.id == chunkId) with
  | none => .error "Record to update not found."
  | some _ =>
      .ok { db with
            chunks := db.chunks.map
              (fun c => if c.id == chunkId then { c with text := text, speaker := speaker } else c) }

/-- The rows of `transcript_chunks` belonging to `sid`, in table order
(`findMany({ where: { sessionId } })` before sorting). -/
def chunkRowsFor (db : DB) (sid : String) : List TranscriptChunk :=
  db.chunks.filter (fun c => c.sessionId == sid)

/-- The rows of `summaries` belonging to `sid`. -/
def summariesFor (db : DB) (sid : String) : List SummaryRow :=
  db.summaries.filter (fun r => r.sessionId == sid)

/-- Insertion step of the by-`chunkIndex` sort used to model Prisma's
`orderBy: { chunkIndex: 'asc' }`. -/
def insertByIdx (x : TranscriptChunk) : List TranscriptChunk → List TranscriptChunk
  | [] => [x]
  | y :: ys => if x.chunkIndex ≤ y.chunkIndex then x :: y :: ys else y :: insertByIdx x ys

/-- Sort transcript-chunk rows ascending by `chunkIndex`. -/
def sortByChunkIdx (l : List TranscriptChunk) : List TranscriptChunk :=
  l.foldr insertByIdx []

/-- `prisma.transcriptChunk.findMany({ where: { sessionId }, orderBy: { chunkIndex: 'asc' } })`. -/
def chunkRowsSorted (db : DB) (sid : String) : List TranscriptChunk :=
  sortByChunkIdx (chunkRowsFor db sid)

/-- `prisma.transcriptChunk.findFirst({ where: { sessionId }, orderBy: { chunkIndex: 'asc' } })`. -/
def findFirstChunk (db : DB) (sid : String) : Option TranscriptChunk :=
  (chunkRowsSorted db sid).head?

/-! ## Chunk Store (`fileStorage.ts`, filesystem under `tmp/<sessionId>/`) -/

/-- A file in a session's on-disk area: `tmp/<sessionId>/<name>`. -/
structure FileEntry where
  sessionId : String
  name : String
  bytes : List Nat
deriving DecidableEq, Repr

/-- The on-disk chunk area.  Entry order is immaterial: every consumer of
a directory listing re-sorts by the numeric index in the filename. -/
structure Store where
  files : List FileEntry
deriving DecidableEq, Repr

/-- `fs.writeFile` under a session directory: replaces the entry with the
same (sessionId, name) key if present (last write wins), else adds it. -/
def writeFileFS (store : Store) (sid name : String) (bytes : List Nat) : Store :=
  { files :=
      store.files.filter (fun f => !(f.sessionId == sid && f.name == name))
        ++ [{ sessionId := sid, name := name, bytes := bytes }] }

/-- Read the bytes of `tmp/<sid>/<name>`, when the file exists. -/
def readFileFS (store : Store) (sid name : String) : Option (List Nat) :=
  (store.files.find? (fun f => f.sessionId == sid && f.name == name)).map (·.bytes)

/-- `detectAudioFormat` from `fileStorage.ts`: MP4 when bytes 4..8 spell
`ftyp`, WebM when the first four bytes are the EBML magic `1a45dfa3`,
defaulting to WebM. -/
def detectAudioFormat (buffer : List Nat) : String :=
  if 8 ≤ buffer.length ∧ (buffer.drop 4).take 4 = [102, 116, 121, 112] then "mp4"
  else if 4 ≤ buffer.length ∧ buffer.take 4 = [0x1a, 0x45, 0xdf, 0xa3] then "webm"
  else "webm"

/-- The filename `saveAudioChunk` derives for a chunk: `` `${chunkIndex}.${format}` ``. -/
def chunkFileName (chunkIndex : Nat) (buffer : List Nat) : String :=
  toString chunkIndex ++ "." ++ detectAudioFormat buffer

/-- `saveAudioChunk(sessionId, chunkIndex, base64Data)` from
`fileStorage.ts`: decodes the payload (the decoded bytes are the model's
input), detects the container format, and writes
`tmp/<sessionId>/<chunkIndex>.<format>`. -/
def saveAudioChunk (store : Store) (sid : String) (chunkIndex : Nat)
    (bytes : List Nat) : Store :=
  writeFileFS store sid (chunkFileName chunkIndex bytes) bytes

/-- Split a character list at every occurrence of `c` — the char-level
split behind the filename pattern match and the uuid format check. -/
def splitOnChar (c : Char) : List Char → List (List Char)
  | [] => [[]]
  | x :: xs =>
      if x = c then [] :: splitOnChar c xs
      else
        match splitOnChar c xs with
        | [] => [[x]]
        | r :: rs => (x :: r) :: rs

/-- Numeric value of an all-digit character list (`parseInt` on the
digit group captured from the filename). -/
def digitsToNat (l : List Char) : Nat :=
  l.foldl (fun acc c => acc * 10 + (c.toNat - 48)) 0

/-- Parse a directory entry against the `^\d+\.(webm|mp4)$` filter of
`getSessionChunksSorted`, returning the numeric chunk index on a match. -/
def chunkFileIndex (name : String) : Option Nat :=
  match splitOnChar '.' name.toList with
  | [digits, ext] =>
      if digits ≠ [] ∧ digits.all Char.isDigit ∧
          (ext = ['w', 'e', 'b', 'm'] ∨ ext = ['m', 'p', '4']) then
        some (digitsToNat digits)
      else none
  | _ => none

/-- Insertion step of the numeric sort on (filename, index) pairs. -/
def insertByFileIdx (x : String × Nat) : List (String × Nat) → List (String × Nat)
  | [] => [x]
  | y :: ys => if x.2 ≤ y.2 then x :: y :: ys else y :: insertByFileIdx x ys

/-- Sort directory entries ascending by the numeric index parsed from the
filename (the `(a, b) => aIndex - bIndex` comparator). -/
def sortByFileIdx (l : List (String × Nat)) : List (String × Nat) :=
  l.foldr insertByFileIdx []

/-- `getSessionChunksSorted(sessionDir)` from `lib/audioAggregator.ts`:
the filenames in the session's area that match `^\d+\.(webm|mp4)$`,
sorted by the numeric index embedded in the filename. -/
def getSessionChunksSorted (store : Store) (sid : String) : List String :=
  let named := store.files.filterMap (fun f =>
    if f.sessionId == sid then (chunkFileIndex f.name).map (fun i => (f.name, i)) else none)
  (sortByFileIdx named).map (·.1)

/-! ## Audio Aggregator (`lib/audioAggregator.ts`) -/

/-- `concatenateWebMChunks(chunkPaths, outputPath)`.
`ffmpegOut` is the external ffmpeg concat process, abstracted as the
bytes it writes to the output file (or its failure).
* `N = 0`: rejected.
* `N = 1`: `fs.copyFile` — a direct byte copy with **no** size check.
* `N ≥ 2`: ffmpeg concat, then a `stat` verifying the output is non-empty. -/
def concatenateWebMChunks (store : Store) (sid : String) (chunkNames : List String)
    (outputName : String) (ffmpegOut : Except String (List Nat)) :
    Except String Store :=
  match chunkNames with
  | [] => .error "No chunks to concatenate"
  | [single] =>
      match readFileFS store sid single with
      | none => .error "copyFile: no such file"
      | some b => .ok (writeFileFS store sid outputName b)
  | _ =>
      match ffmpegOut with
      | .error e => .error ("Failed to concatenate audio chunks: " ++ e)
      | .ok outBytes =>
          let store1 := writeFileFS store sid outputName outBytes
          if outBytes.length = 0 then
            .error "Failed to concatenate audio chunks: Concatenated file is empty"
          else .ok store1

/-- `waitForFileReady` from `socket.ts`, against a quiescent filesystem:
the size-stabilisation poll succeeds exactly when the file exists with a
positive size, and times out with an error otherwise. -/
def waitForFileReady (store : Store) (sid name : String) : Except String Unit :=
  match readFileFS store sid name with
  | some b => if 0 < b.length then .ok () else .error ("File not ready after timeout: " ++ name)
  | none => .error ("File not ready after timeout: " ++ name)

/-! ## Server-to-client events and acknowledgments -/

/-- The events a handler may emit on the connection. -/
inductive Event
  | statusEvt (status : SessionState) (sessionId : String)
  | errorEvt (message : String)
  | audioReceived (sessionId : String) (chunkIndex : Nat)
  | transcriptEvt (sessionId : String) (text : String)
  | transcriptionError (sessionId : String) (message : String)
  | completedEvt (sessionId : String) (summaryId : Nat) (summary : String)
deriving DecidableEq, Repr

/-- Is this the terminal `completed` event (the one carrying the summary
payload, distinct from a `session:status` with status `completed`)? -/
def Event.isCompleted : Event → Bool
  | .completedEvt _ _ _ => true
  | _ => false

/-- Number of terminal `completed` events in an emission trace. -/
def countCompleted (evs : List Event) : Nat :=
  (evs.filter Event.isCompleted).length

/-- The payload passed to a handler's `ack` callback. -/
inductive AckResp
  | heartbeatOk (serverTime : Nat)
  | chunkOk (chunkId : Nat) (chunkIndex : Nat) (sessionId : String)
  | sessionOk (sessionId : String)
  | fail (error : String)
deriving DecidableEq, Repr

/-- The `success` flag of an ack payload. -/
def AckResp.success : AckResp → Bool
  | .fail _ => false
  | _ => true

/-! ## Zod payload schemas (`schemas.ts`)

Raw payloads model the untyped client JSON: every field is optional, and
the parse functions perform the checks the Zod schemas declare. -/

/-- Raw payload for `pause` / `resume` / `end_session`
(the three schemas all require `sessionId: z.string().min(1)`). -/
structure CtrlRaw where
  sessionId : Option String
deriving DecidableEq, Repr

/-- `PauseSessionSchema` / `ResumeSessionSchema` / `EndSessionSchema` parse. -/
def parseCtrl (p : CtrlRaw) : Except String String :=
  match p.sessionId with
  | none => .error "Session ID is required"
  | some s => if s.length = 0 then .error "Session ID is required" else .ok s

/-- Raw `audio_chunk` payload.  `audioData` holds the base64-decoded
bytes; `chunkIndex` is an arbitrary integer before validation. -/
structure AudioChunkRaw where
  sessionId : Option String
  chunkIndex : Option Int
  audioData : Option (List Nat)
  speaker : Option String
deriving DecidableEq, Repr

/-- A validated `audio_chunk` payload. -/
structure AudioChunkP where
  sessionId : String
  chunkIndex : Nat
  audioData : List Nat
  speaker : Option String
deriving DecidableEq, Repr

/-- `AudioChunkSchema` parse: `sessionId` non-empty, `chunkIndex` an
integer `≥ 0`, `audioData` present (any string); `speaker` optional. -/
def parseAudioChunk (p : AudioChunkRaw) : Except String AudioChunkP :=
  match p.sessionId, p.chunkIndex, p.audioData with
  | some sid, some idx, some bytes =>
      if sid.length = 0 then .error "Session ID is required"
      else if idx < 0 then .error "Number must be greater than or equal to 0"
      else .ok { sessionId := sid, chunkIndex := idx.toNat, audioData := bytes,
                 speaker := p.speaker }
  | _, _, _ => .error "Required"

/-- Raw `heartbeat` payload. -/
structure HeartbeatRaw where
  sessionId : Option String
  timestamp : Option Int
deriving DecidableEq, Repr

/-- Hexadecimal digit test for the uuid format check. -/
def isHexDigit (c : Char) : Bool :=
  c.isDigit || ('a' ≤ c && c ≤ 'f') || ('A' ≤ c && c ≤ 'F')

/-- Models Zod's `z.string().uuid()` format validation: five dash-joined
hexadecimal groups of sizes 8-4-4-4-12. -/
def isUuid (s : String) : Bool :=
  match splitOnChar '-' s.toList with
  | [a, b, c, d, e] =>
      a.length == 8 && b.length == 4 && c.length == 4 && d.length == 4 &&
      e.length == 12 && (a ++ b ++ c ++ d ++ e).all isHexDigit
  | _ => false

/-- `HeartbeatSchema` parse: requires `sessionId` in uuid format **and**
a numeric `timestamp`. -/
def parseHeartbeat (p : HeartbeatRaw) : Except String (String × Int) :=
  match p.sessionId, p.timestamp with
  | some sid, some ts =>
      if isUuid sid then .ok (sid, ts) else .error "Invalid session ID format"
  | _, _ => .error "Required"

/-! ## Transcription worker (`transcription/worker.ts`) -/

/-- Result of `processTranscription` (the worker catches its own errors
and reports them through this result instead of throwing). -/
structure TransJobResult where
  success : Bool
  text : Option String
deriving DecidableEq, Repr

/-- `processTranscription(io, job)`: transcribe via Whisper (oracle
`whisper`), store the text on the chunk row `chunkId` with the Whisper
speaker (`null`), and emit a `transcript` event; any failure is caught
inside the worker, which emits a `transcription_error` event and returns
`success: false` — it never throws to its caller. -/
def processTranscription (db : DB) (sid : String) (chunkId : Nat)
    (whisper : Except String String) : DB × TransJobResult × List Event :=
  match whisper with
  | .error e => (db, { success := false, text := none }, [.transcriptionError sid e])
  | .ok text =>
      match chunkUpdateText db chunkId text none with
      | .error e => (db, { success := false, text := none }, [.transcriptionError sid e])
      | .ok db1 => (db1, { success := true, text := some text }, [.transcriptEvt sid text])

/-! ## Summary processor (`summary/processor.ts`) -/

/-- The structured result of the Gemini summarization backend
(`lib/summary.ts` `generateSummary`), treated as an opaque oracle. -/
structure GeminiResult where
  summary : String
  keyPoints : List String
  actionItems : List String
  topics : List String
deriving DecidableEq, Repr

/-- The sentinel prefix marking a fallback summary's `content`. -/
def fallbackMark : String := "⚠️ AI summary generation failed. Transcript preview:\n\n"

/-- The deterministic fallback summary the processor substitutes when the
Gemini call fails: a truncated (500-character) transcript preview under
the sentinel marker. -/
def fallbackSummary (fullText : String) : GeminiResult :=
  let preview := fullText.take 500 ++ (if 500 < fullText.length then "..." else "")
  { summary := fallbackMark ++ preview,
    keyPoints := ["Summary generation failed - AI service unavailable"],
    actionItems := ["Review raw transcript for details"],
    topics := ["Error: Summary unavailable"] }

/-- `aggregateTranscript(sessionId)`: all chunk texts for the session in
`chunkIndex` order joined by newlines; raises when the session has no
chunk rows. -/
def aggregateTranscript (db : DB) (sid : String) : Except String (String × Nat) :=
  if (chunkRowsSorted db sid).isEmpty then
    .error ("No transcript chunks found for session " ++ sid)
  else
    .ok (String.intercalate "\n" ((chunkRowsSorted db sid).map (·.text)),
         (chunkRowsSorted db sid).length)

/-- `saveSummary(sessionId, summaryData)`: one `summary.create`. -/
def saveSummary (db : DB) (sid : String) (r : GeminiResult) : DB × SummaryRow :=
  summaryCreate db sid r.summary r.keyPoints r.actionItems

/-- The data `generateSessionSummary` resolves with. -/
structure SummaryData where
  sessionId : String
  summaryId : Nat
  content : String
  keyPoints : List String
  actionItems : List String
  topics : List String
deriving DecidableEq, Repr

/-- The completed-session update issued by the processor: state to
`completed` and `endedAt` stamped **unconditionally** with the current
time. -/
def completedUpdateFun (now : Nat) (s : Session) : Session :=
  { s with state := .completed, endedAt := some now }

/-- The summary result the processor proceeds with: the Gemini result,
or the deterministic fallback when the backend call failed (the inner
try/catch of step 2 — this failure is absorbed, not propagated). -/
def summaryResultOf (gemini : Except String GeminiResult) (fullText : String) :
    GeminiResult :=
  match gemini with
  | .ok r => r
  | .error _ => fallbackSummary fullText

/-- `generateSessionSummary(sessionId)` with the Gemini backend as the
oracle `gemini` and the clock at `now`:
1. aggregate the transcript (throws if no chunk rows);
2. call Gemini; on failure substitute the deterministic fallback summary;
3. save exactly one Summary row (fallback or not);
4. update the session to `completed`, stamping `endedAt := now`.
The outer catch makes a last-resort attempt to force the session to
`completed` (ignoring its own failure) and then rethrows. -/
def generateSessionSummary (db : DB) (sid : String)
    (gemini : Except String GeminiResult) (now : Nat) :
    DB × Except String SummaryData :=
  match aggregateTranscript db sid with
  | .error e =>
      -- outer catch: last-resort forced completion, then rethrow
      match sessionUpdate db sid (completedUpdateFun now) with
      | .ok (db1, _) => (db1, .error e)
      | .error _ => (db, .error e)
  | .ok (fullText, _count) =>
      match sessionUpdate (saveSummary db sid (summaryResultOf gemini fullText)).1
          sid (completedUpdateFun now) with
      | .error e =>
          -- step-4 failure: the outer catch retries the same failing
          -- update (a no-op), then rethrows
          ((saveSummary db sid (summaryResultOf gemini fullText)).1, .error e)
      | .ok (db2, _) =>
          (db2, .ok { sessionId := sid,
                      summaryId := (saveSummary db sid (summaryResultOf gemini fullText)).2.id,
                      content := (summaryResultOf gemini fullText).summary,
                      keyPoints := (summaryResultOf gemini fullText).keyPoints,
                      actionItems := (summaryResultOf gemini fullText).actionItems,
                      topics := (summaryResultOf gemini fullText).topics })

/-! ## Socket handlers (`socket.ts`) -/

/-- Per-connection mutable state (`socket.data`). -/
structure Conn where
  sessionId : Option String
  userId : Option String
  lastHeartbeat : Option Nat
deriving DecidableEq, Repr

/-- The `heartbeat` handler: on a payload passing `HeartbeatSchema`,
refresh `socket.data.lastHeartbeat` and ack `{success: true, serverTime}`;
on a validation failure the catch only logs — no ack, no state change.
The handler issues no database operation at all. -/
def heartbeatHandler (conn : Conn) (db : DB) (p : HeartbeatRaw) (now : Nat) :
    Conn × DB × Option AckResp :=
  match parseHeartbeat p with
  | .error _ => (conn, db, none)
  | .ok _ => ({ conn with lastHeartbeat := some now }, db, some (.heartbeatOk now))

/-- The speaker stored at chunk creation: `data.speaker || 'Unknown'`. -/
def speakerOrUnknown : Option String → String
  | some s => if s = "" then "Unknown" else s
  | none => "Unknown"

/-- The `audio_chunk` handler: validate the payload, look the session up,
reject unless its state is `recording`, then save the bytes to the chunk
store and create one TranscriptChunk row (speaker defaulted to
`Unknown`, text empty).  Any thrown error is caught: the ack carries
`success: false` and an `error` event is emitted; nothing was persisted
when the throw happened before the save. -/
def audioChunkHandler (store : Store) (db : DB) (p : AudioChunkRaw) :
    Store × DB × Option AckResp × List Event :=
  match parseAudioChunk p with
  | .error e =>
      (store, db, some (.fail ("Validation error: " ++ e)),
       [.errorEvt ("Validation error: " ++ e)])
  | .ok a =>
      match findSession db a.sessionId with
      | none =>
          (store, db, some (.fail "Session not found"), [.errorEvt "Session not found"])
      | some sess =>
          if sess.state ≠ .recording then
            (store, db,
             some (.fail ("Session is not recording (current state: " ++ sess.state.str ++ ")")),
             [.errorEvt ("Session is not recording (current state: " ++ sess.state.str ++ ")")])
          else
            (saveAudioChunk store a.sessionId a.chunkIndex a.audioData,
             (chunkCreate db a.sessionId a.chunkIndex (some (speakerOrUnknown a.speaker)) "").1,
             some (.chunkOk (chunkCreate db a.sessionId a.chunkIndex
                (some (speakerOrUnknown a.speaker)) "").2.id a.chunkIndex a.sessionId),
             [.audioReceived a.sessionId a.chunkIndex])

/-- The `pause` handler: parse, then `session.update` straight to
`paused` — the current state is never consulted.  On any throw (Zod or a
missing session) the ack is `success: false` and an `error` event is
emitted, with the database untouched. -/
def pauseHandler (db : DB) (p : CtrlRaw) : DB × Option AckResp × List Event :=
  match parseCtrl p with
  | .error e =>
      (db, some (.fail ("Validation error: " ++ e)), [.errorEvt ("Validation error: " ++ e)])
  | .ok sid =>
      match sessionUpdate db sid (fun s => { s with state := .paused }) with
      | .error _ =>
          (db, some (.fail "Failed to pause session"), [.errorEvt "Failed to pause session"])
      | .ok (db1, s) =>
          (db1, some (.sessionOk s.id), [.statusEvt .paused sid])

/-- The `resume` handler: parse, then `session.update` straight to
`recording` — the current state is never consulted. -/
def resumeHandler (db : DB) (p : CtrlRaw) : DB × Option AckResp × List Event :=
  match parseCtrl p with
  | .error e =>
      (db, some (.fail ("Validation error: " ++ e)), [.errorEvt ("Validation error: " ++ e)])
  | .ok sid =>
      match sessionUpdate db sid (fun s => { s with state := .recording }) with
      | .error _ =>
          (db, some (.fail "Failed to resume session"), [.errorEvt "Failed to resume session"])
      | .ok (db1, s) =>
          (db1, some (.sessionOk s.id), [.statusEvt .recording sid])

/-- The update the `end_session` handler issues synchronously: state to
`processing` and `endedAt` stamped **unconditionally** with the current
time. -/
def endUpdateFun (now : Nat) (s : Session) : Session :=
  { s with state := .processing, endedAt := some now }

/-- `aggregateAndTranscribeSession(io, socketId, sessionId)`: list the
session's on-disk chunks (throw when none), concatenate them into
`combined.webm`, wait for the combined file to stabilise, look up the
first chunk row (throw when none), then run the transcription worker on
the combined file.  The worker catches its own failures, so a Whisper
error does **not** propagate.  On error the partial on-disk state is
dropped by the model (no claim depends on it); the database is untouched
on every error path. -/
def aggregateAndTranscribeSession (store : Store) (db : DB) (sid : String)
    (ffmpegOut : Except String (List Nat)) (whisper : Except String String) :
    Except String (Store × DB × List Event) :=
  if getSessionChunksSorted store sid = [] then .error "No chunks found for session"
  else
    match concatenateWebMChunks store sid (getSessionChunksSorted store sid)
        "combined.webm" ffmpegOut with
    | .error e => .error e
    | .ok store1 =>
        match waitForFileReady store1 sid "combined.webm" with
        | .error e => .error e
        | .ok _ =>
            match findFirstChunk db sid with
            | none => .error "No chunk metadata found in database"
            | some firstChunk =>
                let (db1, _res, evs) := processTranscription db sid firstChunk.id whisper
                .ok (store1, db1, evs)

/-- The asynchronous promise chain `end_session` launches after its
immediate ack: aggregation/transcription, then the summary pipeline,
then the terminal events.  The `.catch` at the end of the chain only
emits an `error` event and a `completed` status event — it performs no
database write of its own. -/
def finalizeChain (store : Store) (db : DB) (sid : String)
    (ffmpegOut : Except String (List Nat)) (whisper : Except String String)
    (gemini : Except String GeminiResult) (now2 : Nat) :
    Store × DB × List Event :=
  match aggregateAndTranscribeSession store db sid ffmpegOut whisper with
  | .error _ =>
      (store, db,
       [.errorEvt "Summary generation encountered errors. Session saved with transcript only.",
        .statusEvt .completed sid])
  | .ok (store1, db1, evT) =>
      match generateSessionSummary db1 sid gemini now2 with
      | (db2, .error _) =>
          (store1, db2,
           evT ++ [.errorEvt "Summary generation encountered errors. Session saved with transcript only.",
                   .statusEvt .completed sid])
      | (db2, .ok sd) =>
          (store1, db2,
           evT ++ [.completedEvt sid sd.summaryId sd.content, .statusEvt .completed sid])

/-- The complete outcome of an `end_session` signal. -/
structure EndOutcome where
  store : Store
  db : DB
  ack : Option AckResp
  events : List Event
deriving DecidableEq, Repr

/-- The `end_session` handler: parse, update the session to `processing`
stamping `endedAt := now1`, ack success and emit the `processing` status,
then run the finalize chain (asynchronously in the source; its emissions
are appended to the trace).  A parse failure or a missing session yields
a failure ack plus an `error` event with no database change. -/
def endSessionHandler (store : Store) (db : DB) (p : CtrlRaw) (now1 : Nat)
    (ffmpegOut : Except String (List Nat)) (whisper : Except String String)
    (gemini : Except String GeminiResult) (now2 : Nat) : EndOutcome :=
  match parseCtrl p with
  | .error e =>
      ⟨store, db, some (.fail ("Validation error: " ++ e)),
       [.errorEvt ("Validation error: " ++ e)]⟩
  | .ok sid =>
      match sessionUpdate db sid (endUpdateFun now1) with
      | .error _ =>
          ⟨store, db, some (.fail "Failed to end session"), [.errorEvt "Failed to end session"]⟩
      | .ok (db1, s) =>
          ⟨(finalizeChain store db1 sid ffmpegOut whisper gemini now2).1,
           (finalizeChain store db1 sid ffmpegOut whisper gemini now2).2.1,
           some (.sessionOk s.id),
           .statusEvt .processing sid ::
             (finalizeChain store db1 sid ffmpegOut whisper gemini now2).2.2⟩

/-! ## Concrete fixtures used by witnesses and counterexamples -/

/-- A session that has reached the terminal `completed` state. -/
def sessCompleted : Session :=
  { id := "s1", userId := "u1", state := .completed, startedAt := 0, endedAt := some 5 }

/-- A database holding only the completed session. -/
def dbCompleted : DB :=
  { sessions := [sessCompleted], chunks := [], summaries := [], nextId := 100 }

/-- A session in the `recording` state. -/
def sessRecording : Session :=
  { id := "s1", userId := "u1", state := .recording, startedAt := 0, endedAt := none }

/-- A database holding only the recording session (no chunk rows yet). -/
def dbRecording : DB :=
  { sessions := [sessRecording], chunks := [], summaries := [], nextId := 100 }

/-- A session in the `paused` state. -/
def sessPaused : Session :=
  { id := "s1", userId := "u1", state := .paused, startedAt := 0, endedAt := none }

/-- A database holding only the paused session. -/
def dbPaused : DB :=
  { sessions := [sessPaused], chunks := [], summaries := [], nextId := 100 }

/-- One uploaded chunk row for session `s1` (text still empty). -/
def chunkRow0 : TranscriptChunk :=
  { id := 1, sessionId := "s1", chunkIndex := 0, speaker := some "Unknown", text := "" }

/-- A database with the recording session and one chunk row. -/
def dbOneChunk : DB :=
  { sessions := [sessRecording], chunks := [chunkRow0], summaries := [], nextId := 100 }

/-- A chunk area holding one WebM chunk file for `s1`. -/
def storeOneChunk : Store :=
  { files := [{ sessionId := "s1", name := "0.webm", bytes := [26, 69, 223, 163, 7] }] }

/-- A chunk area holding one zero-byte chunk file for `s1`. -/
def storeZeroByte : Store :=
  { files := [{ sessionId := "s1", name := "0.webm", bytes := [] }] }

/-- The empty chunk area. -/
def storeEmpty : Store := { files := [] }

/-- Two consecutive `audio_chunk` uploads carrying the same
`(sessionId, chunkIndex)` key: the second runs on the state left by the
first. -/
def doubleUpload (store : Store) (db : DB) (sid : String) (idx : Nat)
    (b1 b2 : List Nat) : Store × DB × Option AckResp × List Event :=
  audioChunkHandler
    (audioChunkHandler store db
      { sessionId := some sid, chunkIndex := some (idx : Int),
        audioData := some b1, speaker := none }).1
    (audioChunkHandler store db
      { sessionId := some sid, chunkIndex := some (idx : Int),
        audioData := some b1, speaker := none }).2.1
    { sessionId := some sid, chunkIndex := some (idx : Int),
      audioData := some b2, speaker := none }

/-- An `end_session` run on a session with no chunk files on disk: the
asynchronous finalize sequence fails at step 1 (listing chunks). -/
def endRunNoChunks : EndOutcome :=
  endSessionHandler storeEmpty dbRecording { sessionId := some "s1" } 10
    (.ok [1]) (.ok "text")
    (.ok { summary := "S", keyPoints := [], actionItems := [], topics := [] }) 20

/-- A fully successful `end_session` run on a one-chunk session: the end
signal arrives at time 10 and the pipeline completes at time 20. -/
def endRunSuccess : EndOutcome :=
  endSessionHandler storeOneChunk dbOneChunk { sessionId := some "s1" } 10
    (.ok [1]) (.ok "hello")
    (.ok { summary := "S", keyPoints := [], actionItems := [], topics := [] }) 20

/-- The database right after the synchronous part of that `end_session`
(the update to `processing` at time 10). -/
def dbAfterEndSync : DB :=
  match sessionUpdate dbOneChunk "s1" (endUpdateFun 10) with
  | .ok (db1, _) => db1
  | .error _ => dbOneChunk

/-! ## Helper lemmas -/

theorem find?_map_pred {α : Type} (g : α → α) (p : α → Bool)
    (hpg : ∀ a, p (g a) = p a) :
    ∀ l : List α, (l.map g).find? p = (l.find? p).map g := by
  intro l
  induction l with
  | nil => rfl
  | cons a l ih =>
      by_cases h : p a = true
      · simp [List.find?_cons_of_pos, h, hpg]
      · have h' : p a = false := by simpa using h
        have hga : p (g a) = false := by rw [hpg]; exact h'
        simp only [List.map_cons]
        rw [List.find?_cons_of_neg _ (by simp [hga]),
            List.find?_cons_of_neg _ (by simp [h'])]
        exact ih

theorem find?_append_right {α : Type} {p : α → Bool} (l1 l2 : List α)
    (h : l1.find? p = none) : (l1 ++ l2).find? p = l2.find? p := by
  induction l1 with
  | nil => rfl
  | cons a l ih =>
      by_cases ha : p a = true
      · rw [List.find?_cons_of_pos _ ha] at h; exact absurd h (by simp)
      · have ha' : p a = false := by simpa using ha
        rw [List.find?_cons_of_neg _ (by simp [ha'])] at h
        simpa [List.cons_append, List.find?_cons_of_neg _ (by simp [ha'] : ¬ p a = true)]
          using ih h

theorem find?_filter_not {α : Type} (p : α → Bool) (l : List α) :
    (l.filter (fun a => !(p a))).find? p = none := by
  rw [List.find?_eq_none]
  intro x hx
  have := (List.mem_filter.mp hx).2
  simp at this
  simp [this]

/-- Read-after-write on the chunk store: the freshly written bytes are
what a subsequent read of the same (session, name) key returns. -/
theorem readFileFS_writeFileFS (store : Store) (sid name : String) (bytes : List Nat) :
    readFileFS (writeFileFS store sid name bytes) sid name = some bytes := by
  unfold readFileFS writeFileFS
  rw [find?_append_right _ _ (find?_filter_not _ _)]
  simp [List.find?]

/-- A `session.update` on an id that is absent raises. -/
theorem sessionUpdate_error_of_none {db : DB} {sid : String} (f : Session → Session)
    (hs : findSession db sid = none) :
    sessionUpdate db sid f = .error "Record to update not found." := by
  unfold sessionUpdate
  unfold findSession at hs
  rw [hs]

/-- A `session.update` on a present id succeeds and returns the updated row. -/
theorem sessionUpdate_ok_of_find {db : DB} {sid : String} {s : Session}
    (f : Session → Session) (hs : findSession db sid = some s) :
    sessionUpdate db sid f
      = .ok ({ db with sessions :=
                db.sessions.map (fun t => if t.id == sid then f t else t) }, f s) := by
  unfold sessionUpdate
  unfold findSession at hs
  rw [hs]

/-- After a successful `session.update` whose data leaves the id alone,
the updated row is what a lookup finds, and the other tables are
untouched. -/
theorem sessionUpdate_ok_find {db db' : DB} {sid : String} {f : Session → Session}
    {s' : Session} (hf : ∀ t, (f t).id = t.id)
    (hu : sessionUpdate db sid f = .ok (db', s')) :
    findSession db' sid = some s' ∧ db'.chunks = db.chunks ∧
    db'.summaries = db.summaries ∧ db'.nextId = db.nextId := by
  unfold sessionUpdate at hu
  cases hfind : db.sessions.find? (fun s => s.id == sid) with
  | none => rw [hfind] at hu; exact absurd hu (by simp)
  | some s =>
      rw [hfind] at hu
      simp only [Except.ok.injEq, Prod.mk.injEq] at hu
      obtain ⟨hdb, hsrow⟩ := hu
      have hps : (s.id == sid) = true := by
        have := List.find?_some hfind
        simpa using this
      have hpred : ∀ t : Session,
          ((fun u : Session => u.id == sid) (if t.id == sid then f t else t))
            = ((fun u : Session => u.id == sid) t) := by
        intro t
        by_cases h : (t.id == sid) = true
        · simp [h, hf]
        · simp [h]
      refine ⟨?_, ?_, ?_, ?_⟩
      · unfold findSession
        rw [← hdb]
        show (db.sessions.map (fun t => if t.id == sid then f t else t)).find?
              (fun u => u.id == sid) = some s'
        rw [find?_map_pred _ _ hpred, hfind]
        show some (if (s.id == sid) = true then f s else s) = some s'
        rw [if_pos hps, hsrow]
      · rw [← hdb]
      · rw [← hdb]
      · rw [← hdb]

theorem endUpdateFun_id (now : Nat) : ∀ t : Session, (endUpdateFun now t).id = t.id := by
  intro t; rfl

theorem completedUpdateFun_id (now : Nat) :
    ∀ t : Session, (completedUpdateFun now t).id = t.id := by
  intro t; rfl

theorem insertByIdx_ne_nil (x : TranscriptChunk) (l : List TranscriptChunk) :
    insertByIdx x l ≠ [] := by
  cases l with
  | nil => simp [insertByIdx]
  | cons y ys =>
      unfold insertByIdx
      by_cases h : x.chunkIndex ≤ y.chunkIndex <;> simp [h]

theorem sortByChunkIdx_nil_iff (l : List TranscriptChunk) :
    sortByChunkIdx l = [] ↔ l = [] := by
  cases l with
  | nil => simp [sortByChunkIdx]
  | cons a l =>
      simp only [sortByChunkIdx, List.foldr_cons]
      constructor
      · intro h; exact absurd h (insertByIdx_ne_nil _ _)
      · intro h; cases h

theorem filter_map_sessionId (g : TranscriptChunk → TranscriptChunk)
    (hg : ∀ c, (g c).sessionId = c.sessionId) (sid : String) :
    ∀ l : List TranscriptChunk,
      (l.map g).filter (fun c => c.sessionId == sid)
        = (l.filter (fun c => c.sessionId == sid)).map g := by
  intro l
  induction l with
  | nil => rfl
  | cons a l ih =>
      by_cases h : (a.sessionId == sid) = true
      · simp only [List.map_cons, List.filter_cons]
        rw [hg]
        simp [h, ih]
      · have h' : (a.sessionId == sid) = false := by simpa using h
        simp only [List.map_cons, List.filter_cons]
        rw [hg]
        simp [h', ih]

/-- Effect summary of the transcription worker: sessions and summaries
are untouched, the chunk table is a per-row rewrite that preserves
`sessionId`, and no terminal `completed` event is emitted. -/
theorem processTranscription_effects (db : DB) (sid : String) (cid : Nat)
    (w : Except String String) :
    (processTranscription db sid cid w).1.sessions = db.sessions ∧
    (processTranscription db sid cid w).1.summaries = db.summaries ∧
    (∃ g : TranscriptChunk → TranscriptChunk,
      (∀ c, (g c).sessionId = c.sessionId) ∧
      (processTranscription db sid cid w).1.chunks = db.chunks.map g) ∧
    countCompleted (processTranscription db sid cid w).2.2 = 0 := by
  unfold processTranscription
  cases w with
  | error e =>
      refine ⟨rfl, rfl, ⟨id, fun c => rfl, by simp⟩, rfl⟩
  | ok t =>
      unfold chunkUpdateText
      cases hfind : db.chunks.find? (fun c => c.id == cid) with
      | none =>
          refine ⟨rfl, rfl, ⟨id, fun c => rfl, by simp⟩, rfl⟩
      | some c0 =>
          refine ⟨rfl, rfl,
            ⟨fun c => if c.id == cid then { c with text := t, speaker := none } else c,
             ?_, rfl⟩, rfl⟩
          intro c
          by_cases h : (c.id == cid) = true <;> simp [h]

/-- Effect summary of a successful aggregation/transcription stage: the
database keeps its sessions and summaries, the session still has at
least one chunk row, and the stage emits no terminal `completed` event. -/
theorem aggregateAndTranscribe_ok {store : Store} {db : DB} {sid : String}
    {ff : Except String (List Nat)} {wh : Except String String}
    {store1 : Store} {db1 : DB} {evT : List Event}
    (h : aggregateAndTranscribeSession store db sid ff wh = .ok (store1, db1, evT)) :
    db1.sessions = db.sessions ∧ db1.summaries = db.summaries ∧
    chunkRowsSorted db1 sid ≠ [] ∧ countCompleted evT = 0 := by
  unfold aggregateAndTranscribeSession at h
  split at h
  · exact absurd h (by simp)
  · split at h
    · exact absurd h (by simp)
    · rename_i storeC hcat
      split at h
      · exact absurd h (by simp)
      · split at h
        · exact absurd h (by simp)
        · rename_i firstChunk hfc
          split at h
          rename_i pt db1' res evs hpt
          simp only [Except.ok.injEq, Prod.mk.injEq] at h
          obtain ⟨hstore, hdb1, hev⟩ := h
          obtain ⟨hS, hSum, ⟨g, hg, hchunks⟩, hcc⟩ :=
            processTranscription_effects db sid firstChunk.id wh
          rw [hpt] at hS hSum hchunks hcc
          simp only at hS hSum hchunks hcc
          refine ⟨by rw [← hdb1]; exact hS, by rw [← hdb1]; exact hSum, ?_,
            by rw [← hev]; exact hcc⟩
          have hnonempty : chunkRowsSorted db sid ≠ [] := by
            unfold findFirstChunk at hfc
            intro hnil
            rw [hnil] at hfc
            simp at hfc
          intro hnil
          apply hnonempty
          unfold chunkRowsSorted chunkRowsFor at hnil ⊢
          rw [sortByChunkIdx_nil_iff] at hnil ⊢
          rw [← hdb1, hchunks, filter_map_sessionId g hg sid] at hnil
          exact List.map_eq_nil_iff.mp hnil

/-- Core lookup-after-update lemma on a session list: updating the rows
whose id matches the key with an id-preserving function updates (only)
what a subsequent lookup of that key finds. -/
theorem find?_sessions_update (l : List Session) (sid : String) (f : Session → Session)
    (hf : ∀ t, (f t).id = t.id) (s : Session)
    (hs : l.find? (fun u => u.id == sid) = some s) :
    (l.map (fun t => if t.id == sid then f t else t)).find? (fun u => u.id == sid)
      = some (f s) := by
  have hpred : ∀ t : Session,
      ((fun u : Session => u.id == sid) (if t.id == sid then f t else t))
        = ((fun u : Session => u.id == sid) t) := by
    intro t
    by_cases h : (t.id == sid) = true
    · simp [h, hf]
    · simp [h]
  rw [find?_map_pred _ _ hpred, hs]
  have hps : (s.id == sid) = true := by
    have := List.find?_some hs
    simpa using this
  show some (if (s.id == sid) = true then f s else s) = some (f s)
  rw [if_pos hps]

/-- `parseCtrl` accepts any non-empty session id. -/
theorem parseCtrl_ok {sid : String} (hsid : sid.length ≠ 0) :
    parseCtrl { sessionId := some sid } = .ok sid := by
  show (if sid.length = 0 then (Except.error "Session ID is required" : Except String String)
        else Except.ok sid) = Except.ok sid
  rw [if_neg hsid]

/-- `parseAudioChunk` accepts a payload with a non-empty session id, a
natural chunk index, and any byte payload. -/
theorem parseAudioChunk_nat {sid : String} (idx : Nat) (b : List Nat) (sp : Option String)
    (hsid : sid.length ≠ 0) :
    parseAudioChunk
        { sessionId := some sid, chunkIndex := some (idx : Int),
          audioData := some b, speaker := sp }
      = .ok { sessionId := sid, chunkIndex := idx, audioData := b, speaker := sp } := by
  show (if sid.length = 0 then (Except.error "Session ID is required" : Except String AudioChunkP)
        else if (idx : Int) < 0 then Except.error "Number must be greater than or equal to 0"
        else Except.ok
          { sessionId := sid, chunkIndex := ((idx : Int)).toNat, audioData := b, speaker := sp })
      = Except.ok { sessionId := sid, chunkIndex := idx, audioData := b, speaker := sp }
  rw [if_neg hsid, if_neg (by exact Int.not_lt.mpr (Int.natCast_nonneg idx))]
  simp

/-- A `transcriptChunk.create` for `sid` appends exactly one row to the
session's metadata rows. -/
theorem chunkRowsFor_create (db : DB) (sid : String) (idx : Nat) (sp : Option String)
    (tx : String) :
    chunkRowsFor (chunkCreate db sid idx sp tx).1 sid
      = chunkRowsFor db sid ++ [(chunkCreate db sid idx sp tx).2] := by
  unfold chunkRowsFor chunkCreate
  simp [List.filter_append]

/-- A `summary.create` for `sid` appends exactly one row to the
session's summary rows. -/
theorem summariesFor_create (db : DB) (sid : String) (c : String)
    (kp ai : List String) :
    summariesFor (summaryCreate db sid c kp ai).1 sid
      = summariesFor db sid ++ [(summaryCreate db sid c kp ai).2] := by
  unfold summariesFor summaryCreate
  simp [List.filter_append]

theorem countCompleted_append (a b : List Event) :
    countCompleted (a ++ b) = countCompleted a + countCompleted b := by
  simp [countCompleted, List.filter_append]

/-- Closed-form run of `generateSessionSummary` when the session exists
and the transcript aggregation succeeds: one Summary row is appended
(built from the Gemini result, or from the deterministic fallback when
the backend failed), and the session row is set to `completed` with
`endedAt` stamped to the current time. -/
theorem generateSessionSummary_eq {db : DB} {sid : String} {s : Session}
    {ft : String} {n : Nat} (gem : Except String GeminiResult) (now : Nat)
    (hs : findSession db sid = some s)
    (hagg : aggregateTranscript db sid = .ok (ft, n)) :
    generateSessionSummary db sid gem now
      = ({ sessions := db.sessions.map
              (fun t => if t.id == sid then completedUpdateFun now t else t),
           chunks := db.chunks,
           summaries := db.summaries ++ [(saveSummary db sid (summaryResultOf gem ft)).2],
           nextId := db.nextId + 1 },
         .ok { sessionId := sid,
               summaryId := (saveSummary db sid (summaryResultOf gem ft)).2.id,
               content := (summaryResultOf gem ft).summary,
               keyPoints := (summaryResultOf gem ft).keyPoints,
               actionItems := (summaryResultOf gem ft).actionItems,
               topics := (summaryResultOf gem ft).topics }) := by
  have hs3 : findSession (saveSummary db sid (summaryResultOf gem ft)).1 sid = some s := hs
  have hup := sessionUpdate_ok_of_find (completedUpdateFun now) hs3
  unfold generateSessionSummary
  simp only [hagg, hup]
  rfl

/-- A state-only `session.update` on an existing session succeeds and is
what a subsequent lookup finds. -/
theorem ctrlUpdate_spec {db : DB} {sid : String} {s : Session} (f : Session → Session)
    (hf : ∀ t, (f t).id = t.id) (hs : findSession db sid = some s) :
    ∃ db1, sessionUpdate db sid f = .ok (db1, f s) ∧ findSession db1 sid = some (f s) := by
  have hu := sessionUpdate_ok_of_find f hs
  exact ⟨_, hu, (sessionUpdate_ok_find hf hu).1⟩

/-! ## Claim theorems -/

/-- **C1 (counterexample).** The claim says a `pause` on a `Completed`
session fails with an InvalidTransition error and leaves the session
unchanged.  On the code, pausing the completed session `s1` acknowledges
success and persists the `Completed → Paused` transition, so a session
does transition out of `Completed`. -/
theorem C1_counterexample :
    sessionStateOf dbCompleted "s1" = some .completed ∧
    (pauseHandler dbCompleted { sessionId := some "s1" }).2.1 = some (.sessionOk "s1") ∧
    sessionStateOf (pauseHandler dbCompleted { sessionId := some "s1" }).1 "s1"
      = some .paused := by
  refine ⟨rfl, rfl, rfl⟩

/-- **C1 (amended).** The control handlers enforce no transition graph:
for any existing session — whatever its current state, including
`Completed` — `pause` persists `Paused`, `resume` persists `Recording`,
and `end_session`'s synchronous update persists `Processing`, each
acknowledging success.  Only a missing session row (or invalid payload)
makes a control signal fail. -/
theorem C1_amended {db : DB} {sid : String} {s : Session}
    (hsid : sid.length ≠ 0) (hs : findSession db sid = some s) :
    (sessionStateOf (pauseHandler db { sessionId := some sid }).1 sid = some .paused ∧
     (pauseHandler db { sessionId := some sid }).2.1 = some (.sessionOk s.id)) ∧
    (sessionStateOf (resumeHandler db { sessionId := some sid }).1 sid = some .recording ∧
     (resumeHandler db { sessionId := some sid }).2.1 = some (.sessionOk s.id)) ∧
    (∀ now1 : Nat, ∃ db1, sessionUpdate db sid (endUpdateFun now1) = .ok (db1, endUpdateFun now1 s) ∧
      sessionStateOf db1 sid = some .processing) := by
  obtain ⟨dbP, huP, hfP⟩ := ctrlUpdate_spec (fun t => { t with state := .paused })
    (fun t => rfl) hs
  obtain ⟨dbR, huR, hfR⟩ := ctrlUpdate_spec (fun t => { t with state := .recording })
    (fun t => rfl) hs
  refine ⟨?_, ?_, ?_⟩
  · unfold pauseHandler
    simp only [parseCtrl_ok hsid, huP]
    exact ⟨by simp [sessionStateOf, hfP], by simp⟩
  · unfold resumeHandler
    simp only [parseCtrl_ok hsid, huR]
    exact ⟨by simp [sessionStateOf, hfR], by simp⟩
  · intro now1
    obtain ⟨dbE, huE, hfE⟩ := ctrlUpdate_spec (endUpdateFun now1) (endUpdateFun_id now1) hs
    exact ⟨dbE, huE, by simp [sessionStateOf, hfE, endUpdateFun]⟩

/-- **C1 (amended, witness).** Instantiated on the completed session. -/
theorem C1_amended_witness :
    (sessionStateOf (pauseHandler dbCompleted { sessionId := some "s1" }).1 "s1" = some .paused ∧
     (pauseHandler dbCompleted { sessionId := some "s1" }).2.1 = some (.sessionOk "s1")) ∧
    (sessionStateOf (resumeHandler dbCompleted { sessionId := some "s1" }).1 "s1" = some .recording ∧
     (resumeHandler dbCompleted { sessionId := some "s1" }).2.1 = some (.sessionOk "s1")) ∧
    (∀ now1 : Nat, ∃ db1,
      sessionUpdate dbCompleted "s1" (endUpdateFun now1) = .ok (db1, endUpdateFun now1 sessCompleted) ∧
      sessionStateOf db1 "s1" = some .processing) :=
  @C1_amended dbCompleted "s1" sessCompleted (by decide) rfl

/-- **C10.** A `pause`, `resume` or `end_session` signal whose sessionId
matches no persisted session acknowledges `{success: false, error}`,
emits an `error` event, and leaves the database untouched — no Session
row is created or mutated. -/
theorem C10_unknown_session {db : DB} {sid : String} (store : Store)
    (ff : Except String (List Nat)) (wh : Except String String)
    (gem : Except String GeminiResult) (now1 now2 : Nat)
    (hsid : sid.length ≠ 0) (hs : findSession db sid = none) :
    pauseHandler db { sessionId := some sid }
      = (db, some (.fail "Failed to pause session"), [.errorEvt "Failed to pause session"]) ∧
    resumeHandler db { sessionId := some sid }
      = (db, some (.fail "Failed to resume session"), [.errorEvt "Failed to resume session"]) ∧
    endSessionHandler store db { sessionId := some sid } now1 ff wh gem now2
      = ⟨store, db, some (.fail "Failed to end session"), [.errorEvt "Failed to end session"]⟩ := by
  refine ⟨?_, ?_, ?_⟩
  · unfold pauseHandler
    simp only [parseCtrl_ok hsid, sessionUpdate_error_of_none _ hs]
  · unfold resumeHandler
    simp only [parseCtrl_ok hsid, sessionUpdate_error_of_none _ hs]
  · unfold endSessionHandler
    simp only [parseCtrl_ok hsid, sessionUpdate_error_of_none _ hs]

/-- **C10 (witness).** Instantiated on a database whose only session is
`s1`, signalling the unknown id `nope`. -/
theorem C10_unknown_session_witness :
    pauseHandler dbRecording { sessionId := some "nope" }
      = (dbRecording, some (.fail "Failed to pause session"), [.errorEvt "Failed to pause session"]) ∧
    resumeHandler dbRecording { sessionId := some "nope" }
      = (dbRecording, some (.fail "Failed to resume session"), [.errorEvt "Failed to resume session"]) ∧
    endSessionHandler storeEmpty dbRecording { sessionId := some "nope" } 10
        (.ok [1]) (.ok "t") (.error "down") 20
      = ⟨storeEmpty, dbRecording, some (.fail "Failed to end session"),
         [.errorEvt "Failed to end session"]⟩ :=
  C10_unknown_session storeEmpty (.ok [1]) (.ok "t") (.error "down") 10 20 (by decide) rfl

/-- **C2.** The claim says an uncaught error anywhere in the finalize
sequence still forces the persisted state to `Completed`.  Evaluating
the code at the failing input — an `end_session` on a session with no
chunk files on disk, so step 1 of the finalize sequence throws — shows
the `.catch` only emits an `error` event and a `completed` status event:
the persisted session row remains in `processing` (no terminal
`completed` event is emitted either), so the session is left in
`Processing` indefinitely. -/
theorem C2_left_in_processing :
    sessionStateOf endRunNoChunks.db "s1" = some .processing ∧
    endRunNoChunks.events
      = [.statusEvt .processing "s1",
         .errorEvt "Summary generation encountered errors. Session saved with transcript only.",
         .statusEvt .completed "s1"] ∧
    countCompleted endRunNoChunks.events = 0 := by
  refine ⟨rfl, rfl, rfl⟩

/-- **C9 (counterexample).** The claim says `endedAt` is set exactly once
(at the transition into `Processing`) and never overwritten, the
`Completed` transition stamping it only if unset.  On the code, the
successful one-chunk run stamps `endedAt := 10` at the `processing`
update and the `completed` update overwrites it to 20 even though it was
already set. -/
theorem C9_counterexample :
    sessionEndedAt dbAfterEndSync "s1" = some (some 10) ∧
    sessionStateOf dbAfterEndSync "s1" = some .processing ∧
    sessionEndedAt endRunSuccess.db "s1" = some (some 20) ∧
    sessionStateOf endRunSuccess.db "s1" = some .completed := by
  refine ⟨rfl, rfl, rfl, rfl⟩

/-- **C9 (amended).** `endedAt` is stamped unconditionally, twice on the
normal path: the `end_session` update stamps the end time whatever the
previous value, and the later `completed` update overwrites it with the
completion time — the code never checks whether it is already set. -/
theorem C9_amended {db : DB} {sid : String} {s : Session}
    {db1 : DB} {s1 : Session} (gem : Except String GeminiResult)
    (ft : String) (n now1 now2 : Nat)
    (hs : findSession db sid = some s)
    (hu : sessionUpdate db sid (endUpdateFun now1) = .ok (db1, s1))
    (hagg : aggregateTranscript db1 sid = .ok (ft, n)) :
    sessionEndedAt db1 sid = some (some now1) ∧
    sessionEndedAt (generateSessionSummary db1 sid gem now2).1 sid = some (some now2) ∧
    sessionStateOf (generateSessionSummary db1 sid gem now2).1 sid = some .completed := by
  have heq := hu
  rw [sessionUpdate_ok_of_find (endUpdateFun now1) hs] at heq
  simp only [Except.ok.injEq, Prod.mk.injEq] at heq
  obtain ⟨hdb1, hs1⟩ := heq
  have hfind1 : findSession db1 sid = some s1 :=
    (sessionUpdate_ok_find (endUpdateFun_id now1) hu).1
  have hfin := generateSessionSummary_eq gem now2 hfind1 hagg
  have hfind2 : ((generateSessionSummary db1 sid gem now2).1).sessions.find?
      (fun u => u.id == sid) = some (completedUpdateFun now2 s1) := by
    rw [hfin]
    exact find?_sessions_update db1.sessions sid (completedUpdateFun now2)
      (completedUpdateFun_id now2) s1 hfind1
  refine ⟨?_, ?_, ?_⟩
  · unfold sessionEndedAt
    rw [hfind1, ← hs1]
    rfl
  · unfold sessionEndedAt findSession
    rw [hfind2]
    rfl
  · unfold sessionStateOf findSession
    rw [hfind2]
    rfl

/-- **C9 (amended, witness).** Instantiated on the one-chunk session,
ending at time 10 and completing at time 20. -/
theorem C9_amended_witness :
    sessionEndedAt dbAfterEndSync "s1" = some (some 10) ∧
    sessionEndedAt (generateSessionSummary dbAfterEndSync "s1" (.error "down") 20).1 "s1"
      = some (some 20) ∧
    sessionStateOf (generateSessionSummary dbAfterEndSync "s1" (.error "down") 20).1 "s1"
      = some .completed :=
  @C9_amended dbOneChunk "s1" sessRecording dbAfterEndSync (endUpdateFun 10 sessRecording)
    (.error "down") "" 1 10 20 rfl rfl rfl

/-- **C6 (counterexample).** The claim says a heartbeat with payload
`{timestamp}` updates the connection's last-seen liveness and is
acknowledged with `{success: true, serverTime}`.  On the code,
`HeartbeatSchema` also requires a uuid `sessionId`, so the bare
`{timestamp: 5}` payload fails validation: the handler's catch only
logs — no ack is sent and `lastHeartbeat` keeps its old value. -/
theorem C6_counterexample :
    heartbeatHandler { sessionId := none, userId := none, lastHeartbeat := some 1 }
        dbCompleted { sessionId := none, timestamp := some 5 } 100
      = ({ sessionId := none, userId := none, lastHeartbeat := some 1 }, dbCompleted, none) ∧
    ({ sessionId := none, userId := none, lastHeartbeat := some 1 } : Conn).lastHeartbeat
      ≠ some 100 := by
  exact ⟨rfl, by decide⟩

/-- **C6 (amended).** A heartbeat whose payload carries a uuid
`sessionId` **and** a numeric `timestamp` updates the connection's
last-seen liveness, leaves the database (hence every Session's state)
untouched, and is acknowledged `{success: true, serverTime}`; a payload
carrying only `{timestamp}` fails validation and is dropped with no ack
and no state change. -/
theorem C6_amended (conn : Conn) (db : DB) (u : String) (t : Int) (now : Nat)
    (hu : isUuid u = true) :
    heartbeatHandler conn db { sessionId := some u, timestamp := some t } now
      = ({ conn with lastHeartbeat := some now }, db, some (.heartbeatOk now)) ∧
    heartbeatHandler conn db { sessionId := none, timestamp := some t } now
      = (conn, db, none) := by
  constructor
  · have hp : parseHeartbeat { sessionId := some u, timestamp := some t } = .ok (u, t) := by
      show (if isUuid u = true then (Except.ok (u, t) : Except String (String × Int))
            else Except.error "Invalid session ID format") = Except.ok (u, t)
      rw [if_pos hu]
    unfold heartbeatHandler
    simp only [hp]
  · rfl

/-- **C6 (amended, witness).** Instantiated with a concrete uuid. -/
theorem C6_amended_witness :
    heartbeatHandler { sessionId := none, userId := none, lastHeartbeat := some 1 }
        dbRecording
        { sessionId := some "123e4567-e89b-12d3-a456-426614174000", timestamp := some 5 } 100
      = ({ sessionId := none, userId := none, lastHeartbeat := some 100 }, dbRecording,
         some (.heartbeatOk 100)) ∧
    heartbeatHandler { sessionId := none, userId := none, lastHeartbeat := some 1 }
        dbRecording { sessionId := none, timestamp := some 5 } 100
      = ({ sessionId := none, userId := none, lastHeartbeat := some 1 }, dbRecording, none) :=
  C6_amended { sessionId := none, userId := none, lastHeartbeat := some 1 } dbRecording
    "123e4567-e89b-12d3-a456-426614174000" 5 100 (by decide)

/-- **C5.** An `audio_chunk` signal arriving while the session's state is
not `Recording` is rejected before any side effect: the ack carries
`success: false`, no bytes are written to the chunk store, and no chunk
metadata row is created — the store and database are returned exactly as
they were. -/
theorem C5_rejected_before_side_effects {store : Store} {db : DB} {p : AudioChunkRaw}
    {a : AudioChunkP} {sess : Session}
    (hp : parseAudioChunk p = .ok a)
    (hs : findSession db a.sessionId = some sess)
    (hst : sess.state ≠ .recording) :
    audioChunkHandler store db p
      = (store, db,
         some (.fail ("Session is not recording (current state: " ++ sess.state.str ++ ")")),
         [.errorEvt ("Session is not recording (current state: " ++ sess.state.str ++ ")")]) := by
  unfold audioChunkHandler
  simp only [hp, hs]
  rw [if_pos hst]

/-- **C5 (witness).** A chunk sent to the paused session `s1`. -/
theorem C5_witness :
    audioChunkHandler storeEmpty dbPaused
        { sessionId := some "s1", chunkIndex := some 0, audioData := some [1], speaker := none }
      = (storeEmpty, dbPaused,
         some (.fail "Session is not recording (current state: paused)"),
         [.errorEvt "Session is not recording (current state: paused)"]) := by
  have h := @C5_rejected_before_side_effects storeEmpty dbPaused
      { sessionId := some "s1", chunkIndex := some 0, audioData := some [1], speaker := none }
      { sessionId := "s1", chunkIndex := 0, audioData := [1], speaker := none }
      sessPaused rfl rfl (by decide)
  simpa using h

/-- **C7.** Aggregation of a one-element chunk list is a direct byte
copy — the output file holds exactly the input chunk's bytes — while
aggregation of an empty list is rejected with the no-chunks error. -/
theorem C7_single_copy_empty_rejected {store : Store} {sid name out : String}
    {b : List Nat} (ff : Except String (List Nat))
    (hr : readFileFS store sid name = some b) :
    concatenateWebMChunks store sid [name] out ff = .ok (writeFileFS store sid out b) ∧
    readFileFS (writeFileFS store sid out b) sid out = some b ∧
    concatenateWebMChunks store sid [] out ff = .error "No chunks to concatenate" := by
  refine ⟨?_, readFileFS_writeFileFS store sid out b, rfl⟩
  unfold concatenateWebMChunks
  simp only [hr]

/-- **C7 (witness).** The one-chunk store, aggregated to `combined.webm`. -/
theorem C7_witness :
    concatenateWebMChunks storeOneChunk "s1" ["0.webm"] "combined.webm" (.ok [9])
      = .ok (writeFileFS storeOneChunk "s1" "combined.webm" [26, 69, 223, 163, 7]) ∧
    readFileFS (writeFileFS storeOneChunk "s1" "combined.webm" [26, 69, 223, 163, 7])
        "s1" "combined.webm"
      = some [26, 69, 223, 163, 7] ∧
    concatenateWebMChunks storeOneChunk "s1" [] "combined.webm" (.ok [9])
      = .error "No chunks to concatenate" :=
  C7_single_copy_empty_rejected (.ok [9]) rfl

/-- **C8 (counterexample).** The claim says a zero-byte output for any
`N ≥ 1` is reported as an aggregation error.  On the code, aggregating
the single zero-byte chunk `0.webm` returns success, and the produced
`combined.webm` is zero bytes. -/
theorem C8_counterexample :
    concatenateWebMChunks storeZeroByte "s1" ["0.webm"] "combined.webm" (.ok [1])
      = .ok (writeFileFS storeZeroByte "s1" "combined.webm" []) ∧
    readFileFS (writeFileFS storeZeroByte "s1" "combined.webm" []) "s1" "combined.webm"
      = some [] := by
  exact ⟨rfl, rfl⟩

/-- **C8 (amended).** The non-empty verification guards only the
multi-chunk ffmpeg path: with two or more chunks a zero-byte output is
reported as an aggregation error, while the single-chunk copy path
performs no size check, so a zero-byte single chunk is returned as a
successful zero-byte output. -/
theorem C8_amended {store : Store} {sid out : String}
    (n1 n2 : String) (rest : List String)
    (hr : readFileFS store sid n1 = some []) :
    concatenateWebMChunks store sid (n1 :: n2 :: rest) out (.ok [])
      = .error "Failed to concatenate audio chunks: Concatenated file is empty" ∧
    concatenateWebMChunks store sid [n1] out (.ok [])
      = .ok (writeFileFS store sid out []) := by
  constructor
  · rfl
  · unfold concatenateWebMChunks
    simp only [hr]

/-- **C8 (amended, witness).** Two names on the ffmpeg path versus the
zero-byte single chunk. -/
theorem C8_amended_witness :
    concatenateWebMChunks storeZeroByte "s1" ["0.webm", "1.webm"] "combined.webm" (.ok [])
      = .error "Failed to concatenate audio chunks: Concatenated file is empty" ∧
    concatenateWebMChunks storeZeroByte "s1" ["0.webm"] "combined.webm" (.ok [])
      = .ok (writeFileFS storeZeroByte "s1" "combined.webm" []) :=
  C8_amended "0.webm" "1.webm" [] rfl

/-- **C4 (counterexample).** The claim says a duplicated
`(sessionId, chunkIndex)` upload leaves exactly one metadata row.  On
the code, uploading chunk 0 of `s1` twice leaves two rows for that key
(the handler `create`s unconditionally and the index is non-unique);
the stored bytes do reflect the last write. -/
theorem C4_counterexample :
    ((doubleUpload storeEmpty dbRecording "s1" 0 [1] [2]).2.1.chunks.filter
        (fun c => c.sessionId == "s1" && c.chunkIndex == 0)).length = 2 ∧
    readFileFS (doubleUpload storeEmpty dbRecording "s1" 0 [1] [2]).1 "s1" "0.webm"
      = some [2] := by
  exact ⟨rfl, rfl⟩

/-- **C4 (amended).** For two uploads with the same
`(sessionId, chunkIndex)` while the session is `Recording` (and the
same detected container format), the stored bytes at the chunk's file
key reflect the last write — the file is overwritten — but a metadata
row is created unconditionally on every upload, so the session has two
more rows afterwards, not exactly one row for that key. -/
theorem C4_amended {store : Store} {db : DB} {sid : String} {sess : Session}
    (idx : Nat) (b1 b2 : List Nat)
    (hsid : sid.length ≠ 0)
    (hs : findSession db sid = some sess) (hrec : sess.state = .recording)
    (hfmt : detectAudioFormat b1 = detectAudioFormat b2) :
    readFileFS (doubleUpload store db sid idx b1 b2).1 sid (chunkFileName idx b1)
      = some b2 ∧
    (chunkRowsFor (doubleUpload store db sid idx b1 b2).2.1 sid).length
      = (chunkRowsFor db sid).length + 2 := by
  have hnotrec : ¬ (sess.state ≠ SessionState.recording) := by simp [hrec]
  have hrun1 : audioChunkHandler store db
      { sessionId := some sid, chunkIndex := some (idx : Int),
        audioData := some b1, speaker := none }
      = (saveAudioChunk store sid idx b1,
         (chunkCreate db sid idx (some (speakerOrUnknown none)) "").1,
         some (.chunkOk (chunkCreate db sid idx (some (speakerOrUnknown none)) "").2.id idx sid),
         [.audioReceived sid idx]) := by
    unfold audioChunkHandler
    simp only [parseAudioChunk_nat idx b1 none hsid, hs]
    rw [if_neg hnotrec]
  have hs2 : findSession (chunkCreate db sid idx (some (speakerOrUnknown none)) "").1 sid
      = some sess := hs
  have hrun2 : audioChunkHandler (saveAudioChunk store sid idx b1)
      (chunkCreate db sid idx (some (speakerOrUnknown none)) "").1
      { sessionId := some sid, chunkIndex := some (idx : Int),
        audioData := some b2, speaker := none }
      = (saveAudioChunk (saveAudioChunk store sid idx b1) sid idx b2,
         (chunkCreate (chunkCreate db sid idx (some (speakerOrUnknown none)) "").1
           sid idx (some (speakerOrUnknown none)) "").1,
         some (.chunkOk (chunkCreate (chunkCreate db sid idx (some (speakerOrUnknown none)) "").1
           sid idx (some (speakerOrUnknown none)) "").2.id idx sid),
         [.audioReceived sid idx]) := by
    unfold audioChunkHandler
    simp only [parseAudioChunk_nat idx b2 none hsid, hs2]
    rw [if_neg hnotrec]
  have hdu : doubleUpload store db sid idx b1 b2
      = (saveAudioChunk (saveAudioChunk store sid idx b1) sid idx b2,
         (chunkCreate (chunkCreate db sid idx (some (speakerOrUnknown none)) "").1
           sid idx (some (speakerOrUnknown none)) "").1,
         some (.chunkOk (chunkCreate (chunkCreate db sid idx (some (speakerOrUnknown none)) "").1
           sid idx (some (speakerOrUnknown none)) "").2.id idx sid),
         [.audioReceived sid idx]) := by
    unfold doubleUpload
    rw [hrun1]
    exact hrun2
  rw [hdu]
  constructor
  · show readFileFS (saveAudioChunk (saveAudioChunk store sid idx b1) sid idx b2)
        sid (chunkFileName idx b1) = some b2
    have hname : chunkFileName idx b1 = chunkFileName idx b2 := by
      unfold chunkFileName
      rw [hfmt]
    rw [hname]
    exact readFileFS_writeFileFS _ sid (chunkFileName idx b2) b2
  · show (chunkRowsFor (chunkCreate (chunkCreate db sid idx (some (speakerOrUnknown none)) "").1
        sid idx (some (speakerOrUnknown none)) "").1 sid).length
      = (chunkRowsFor db sid).length + 2
    rw [chunkRowsFor_create, chunkRowsFor_create]
    simp

/-- **C4 (amended, witness).** Chunk 0 of the recording session `s1`,
uploaded twice with WebM-defaulted bytes. -/
theorem C4_amended_witness :
    readFileFS (doubleUpload storeEmpty dbRecording "s1" 0 [1] [2]).1 "s1"
        (chunkFileName 0 [1])
      = some [2] ∧
    (chunkRowsFor (doubleUpload storeEmpty dbRecording "s1" 0 [1] [2]).2.1 "s1").length
      = (chunkRowsFor dbRecording "s1").length + 2 :=
  @C4_amended storeEmpty dbRecording "s1" sessRecording 0 [1] [2] (by decide) rfl rfl rfl

/-- **C3.** For an `end` whose aggregation/transcription stage succeeds
and whose summarization backend call fails, the pipeline substitutes the
deterministic fallback summary — a truncated transcript preview under
the fallback marker — persists exactly one Summary row visibly marked as
a fallback, still reaches `Completed`, and the whole run emits exactly
one terminal `completed` event. -/
theorem C3_fallback_pipeline {store : Store} {db : DB} {sid : String}
    {db1 : DB} {s1 : Session} {store2 : Store} {db2 : DB} {evT : List Event}
    (ff : Except String (List Nat)) (wh : Except String String) (e : String)
    (now1 now2 : Nat)
    (hsid : sid.length ≠ 0)
    (hsum0 : summariesFor db sid = [])
    (hu : sessionUpdate db sid (endUpdateFun now1) = .ok (db1, s1))
    (hagg : aggregateAndTranscribeSession store db1 sid ff wh = .ok (store2, db2, evT)) :
    sessionStateOf
        (endSessionHandler store db { sessionId := some sid } now1 ff wh (.error e) now2).db
        sid
      = some .completed ∧
    (summariesFor
        (endSessionHandler store db { sessionId := some sid } now1 ff wh (.error e) now2).db
        sid).length = 1 ∧
    (∀ r ∈ summariesFor
        (endSessionHandler store db { sessionId := some sid } now1 ff wh (.error e) now2).db
        sid, ∃ rest, r.content = fallbackMark ++ rest) ∧
    countCompleted
        (endSessionHandler store db { sessionId := some sid } now1 ff wh (.error e) now2).events
      = 1 := by
  obtain ⟨hsess21, hsum21, hrows2, hccT⟩ := aggregateAndTranscribe_ok hagg
  obtain ⟨hfind1, _hchunks1, hsum1, _hnext1⟩ := sessionUpdate_ok_find (endUpdateFun_id now1) hu
  have hfind2 : findSession db2 sid = some s1 := by
    unfold findSession
    rw [hsess21]
    exact hfind1
  set FT := String.intercalate "\n" ((chunkRowsSorted db2 sid).map (·.text)) with hFT
  have hAg : aggregateTranscript db2 sid = .ok (FT, (chunkRowsSorted db2 sid).length) := by
    unfold aggregateTranscript
    rw [if_neg (by simpa [List.isEmpty_iff] using hrows2)]
  have hfin := generateSessionSummary_eq (.error e) now2 hfind2 hAg
  have hchain : finalizeChain store db1 sid ff wh (.error e) now2
      = (store2,
         { sessions := db2.sessions.map
              (fun t => if t.id == sid then completedUpdateFun now2 t else t),
           chunks := db2.chunks,
           summaries := db2.summaries ++ [(saveSummary db2 sid (fallbackSummary FT)).2],
           nextId := db2.nextId + 1 },
         evT ++ [.completedEvt sid (saveSummary db2 sid (fallbackSummary FT)).2.id
                   (fallbackSummary FT).summary,
                 .statusEvt .completed sid]) := by
    unfold finalizeChain
    simp only [hagg, hfin]
    rfl
  have hout : endSessionHandler store db { sessionId := some sid } now1 ff wh (.error e) now2
      = ⟨store2,
         { sessions := db2.sessions.map
              (fun t => if t.id == sid then completedUpdateFun now2 t else t),
           chunks := db2.chunks,
           summaries := db2.summaries ++ [(saveSummary db2 sid (fallbackSummary FT)).2],
           nextId := db2.nextId + 1 },
         some (.sessionOk s1.id),
         .statusEvt .processing sid ::
           (evT ++ [.completedEvt sid (saveSummary db2 sid (fallbackSummary FT)).2.id
                      (fallbackSummary FT).summary,
                    .statusEvt .completed sid])⟩ := by
    unfold endSessionHandler
    simp only [parseCtrl_ok hsid, hu, hchain]
  have hfind2' : db2.sessions.find? (fun u => u.id == sid) = some s1 := hfind2
  have hsum0' : db.summaries.filter (fun r => r.sessionId == sid) = [] := hsum0
  have hsm : summariesFor
      (endSessionHandler store db { sessionId := some sid } now1 ff wh (.error e) now2).db sid
      = [(saveSummary db2 sid (fallbackSummary FT)).2] := by
    rw [hout]
    show (db2.summaries ++ [(saveSummary db2 sid (fallbackSummary FT)).2]).filter
        (fun r => r.sessionId == sid) = [(saveSummary db2 sid (fallbackSummary FT)).2]
    rw [List.filter_append, hsum21, hsum1, hsum0']
    simp [saveSummary, summaryCreate]
  refine ⟨?_, ?_, ?_, ?_⟩
  · rw [hout]
    show ((db2.sessions.map
        (fun t => if t.id == sid then completedUpdateFun now2 t else t)).find?
        (fun u => u.id == sid)).map (·.state) = some .completed
    rw [find?_sessions_update db2.sessions sid (completedUpdateFun now2)
      (completedUpdateFun_id now2) s1 hfind2']
    rfl
  · rw [hsm]
    rfl
  · intro r hr
    rw [hsm] at hr
    simp only [List.mem_singleton] at hr
    subst hr
    exact ⟨FT.take 500 ++ (if 500 < FT.length then "..." else ""), rfl⟩
  · rw [hout]
    have hevT : evT.filter Event.isCompleted = [] := by
      have : (evT.filter Event.isCompleted).length = 0 := hccT
      exact List.length_eq_zero.mp this
    show countCompleted (.statusEvt .processing sid ::
        (evT ++ [.completedEvt sid (saveSummary db2 sid (fallbackSummary FT)).2.id
                   (fallbackSummary FT).summary,
                 .statusEvt .completed sid])) = 1
    simp [countCompleted, List.filter_append, hevT, Event.isCompleted]

/-- **C3 (witness).** The one-chunk session, ended at time 10 with the
Gemini backend failing; everything else succeeds. -/
theorem C3_fallback_pipeline_witness :
    sessionStateOf
        (endSessionHandler storeOneChunk dbOneChunk { sessionId := some "s1" } 10
          (.ok [1]) (.ok "hello") (.error "gemini down") 20).db "s1"
      = some .completed ∧
    (summariesFor
        (endSessionHandler storeOneChunk dbOneChunk { sessionId := some "s1" } 10
          (.ok [1]) (.ok "hello") (.error "gemini down") 20).db "s1").length = 1 ∧
    (∀ r ∈ summariesFor
        (endSessionHandler storeOneChunk dbOneChunk { sessionId := some "s1" } 10
          (.ok [1]) (.ok "hello") (.error "gemini down") 20).db "s1",
      ∃ rest, r.content = fallbackMark ++ rest) ∧
    countCompleted
        (endSessionHandler storeOneChunk dbOneChunk { sessionId := some "s1" } 10
          (.ok [1]) (.ok "hello") (.error "gemini down") 20).events
      = 1 :=
  @C3_fallback_pipeline storeOneChunk dbOneChunk "s1"
    dbAfterEndSync (endUpdateFun 10 sessRecording)
    (aggregateAndTranscribeSession storeOneChunk dbAfterEndSync "s1" (.ok [1]) (.ok "hello")
      |>.toOption.elim storeOneChunk (·.1))
    (aggregateAndTranscribeSession storeOneChunk dbAfterEndSync "s1" (.ok [1]) (.ok "hello")
      |>.toOption.elim dbAfterEndSync (·.2.1))
    (aggregateAndTranscribeSession storeOneChunk dbAfterEndSync "s1" (.ok [1]) (.ok "hello")
      |>.toOption.elim [] (·.2.2))
    (.ok [1]) (.ok "hello") "gemini down" 10 20
    (by decide) rfl rfl rfl

end ScribeAI
